import Mathlib

/-!
Verification of the geometric gesture classifier and the temporal
sign-commitment state machine of the ai-sign-language-detector repository
(src/gesture_recognizer.py, src/recognizer.py, src/text_converter.py,
src/main.py).

Modelling conventions:
* Landmark pixel coordinates are integers (src/detector.py line 79
  produces `int(landmark.x * w), int(landmark.y * h)`), modelled as ℤ.
  Only the x and y components of the source's `[id, x, y, z]` records are
  ever read by the classifier (`lm[1]`, `lm[2]`), so a landmark is the
  pair (x, y).
* The source compares Euclidean distances `math.sqrt(dx^2 + dy^2)` (and
  their quotients by the positive hand size) against positive constant
  thresholds only.  Since `sqrt` is strictly monotone on nonnegatives,
  every such comparison is replaced by the equivalent comparison of
  squared distances: `sqrt a < c ↔ a < c^2` for `c ≥ 0`, and
  `sqrt a / sqrt b < c ↔ a < c^2 * b` for `b > 0`, `c ≥ 0`.  Concretely
  `hand_size < 10 ↔ handSize2 < 100`, `d/hand_size < 1/5 ↔ 25*d2 < hs2`,
  `d/hand_size < 3/10 ↔ 100*d2 < 9*hs2`, `d/hand_size < 2/5 ↔ 25*d2 < 4*hs2`.
* Python float truthiness: `if sign_start_time and ...` in src/main.py is
  false when the stored start time is `None` or `0.0`; the embedding keeps
  this `≠ 0` test.  `if sign_text:` is false for `None` and for the empty
  string.
-/

/-- A single hand landmark: the x and y pixel coordinates read from the
source's `[id, x, y, z]` records (`lm[1]`, `lm[2]`; id and z are never
used by the classifier). -/
structure Landmark where
  x : ℤ
  y : ℤ
deriving DecidableEq

/-- Integer absolute value, written out so that it reduces in the
kernel; equal to `|·|` on ℤ. -/
def absZ (z : ℤ) : ℤ := if z < 0 then -z else z

/-- Landmark access `landmarks[i]`; total via a (0,0) default, used only
under the source's own length guards. -/
def lmAt (lms : List Landmark) (i : ℕ) : Landmark :=
  lms.getD i ⟨0, 0⟩

/-- Squared Euclidean distance; stands for the square of the source's
`calculate_distance` (see the header note on monotonicity of sqrt). -/
def dist2 (p q : Landmark) : ℤ :=
  (p.x - q.x) * (p.x - q.x) + (p.y - q.y) * (p.y - q.y)

/-- The finger-state dictionary returned by `analyze_fingers`. -/
structure Fingers where
  thumb : Bool
  index : Bool
  middle : Bool
  ring : Bool
  pinky : Bool
deriving DecidableEq

/-- `GestureRecognizer.is_finger_extended` (src/gesture_recognizer.py
lines 36-64): bound check, then the thumb's horizontal-splay test or the
tip-above-PIP test for the other fingers. -/
def is_finger_extended (lms : List Landmark) (finger_tip finger_pip finger_mcp : ℕ)
    (is_thumb : Bool) : Bool :=
  if lms.length ≤ max finger_tip (max finger_pip finger_mcp) then false
  else
    let tip := lmAt lms finger_tip
    let mcp := lmAt lms finger_mcp
    let wrist := lmAt lms 0
    let pip := lmAt lms finger_pip
    if is_thumb then
      decide (absZ (tip.x - wrist.x) > absZ (mcp.x - wrist.x))
    else
      decide (tip.y < pip.y)

/-- `GestureRecognizer.analyze_fingers` (lines 66-94): `none` for fewer
than 21 landmarks, else the five per-finger tests. -/
def analyze_fingers (lms : List Landmark) : Option Fingers :=
  if lms.length < 21 then none
  else some
    { thumb := is_finger_extended lms 4 3 2 true
      index := is_finger_extended lms 8 6 5 false
      middle := is_finger_extended lms 12 10 9 false
      ring := is_finger_extended lms 16 14 13 false
      pinky := is_finger_extended lms 20 18 17 false }

/-- Total finger-state accessor (agrees with `analyze_fingers` whenever
the pose has at least 21 landmarks). -/
def fingersOf (lms : List Landmark) : Fingers :=
  (analyze_fingers lms).getD ⟨false, false, false, false, false⟩

/-- The classifier's output triple `(sign_id, sign_name, confidence)`. -/
structure ClassResult where
  sign_id : Option ℕ
  sign_name : Option String
  confidence : ℚ
deriving DecidableEq

/-- Squared hand size: squared distance from wrist (0) to middle
fingertip (12), standing for `hand_size` squared. -/
def handSize2 (lms : List Landmark) : ℤ :=
  dist2 (lmAt lms 0) (lmAt lms 12)

/-- Squared thumb-tip-to-index-tip distance (`thumb_index_dist` squared). -/
def thumbIndexD2 (lms : List Landmark) : ℤ :=
  dist2 (lmAt lms 4) (lmAt lms 8)

/-- Squared index-tip-to-middle-tip distance (`index_middle_dist` squared). -/
def indexMiddleD2 (lms : List Landmark) : ℤ :=
  dist2 (lmAt lms 8) (lmAt lms 12)

/- The thirteen rule guards of `recognize_gesture` (lines 151-239), in
source order.  Each is the conjunction of the finger-pattern test and the
rule's extra geometric test; a nested `if` in the source whose body is the
only `return` is flattened into a conjunction, since failing the inner
test falls through to the next rule. -/

/-- Rule 1, THUMBS UP: thumb only, thumb tip above wrist. -/
def goodCond (f : Fingers) (lms : List Landmark) : Bool :=
  f.thumb && !f.index && !f.middle && !f.ring && !f.pinky &&
    decide ((lmAt lms 4).y < (lmAt lms 0).y)

/-- Rule 2, THUMBS DOWN: four fingers closed (thumb state not tested!),
thumb tip more than 30 px below the wrist. -/
def badCond (f : Fingers) (lms : List Landmark) : Bool :=
  !f.index && !f.middle && !f.ring && !f.pinky &&
    decide ((lmAt lms 4).y > (lmAt lms 0).y + 30)

/-- Rule 3, OK SIGN: thumb+index, others closed, normalized thumb-index
distance < 1/5, and middle/ring/pinky tips strictly below their PIPs. -/
def yesCond (f : Fingers) (lms : List Landmark) : Bool :=
  f.thumb && f.index && !f.middle && !f.ring && !f.pinky &&
    decide (25 * thumbIndexD2 lms < handSize2 lms) &&
    decide ((lmAt lms 12).y > (lmAt lms 10).y) &&
    decide ((lmAt lms 16).y > (lmAt lms 14).y) &&
    decide ((lmAt lms 20).y > (lmAt lms 18).y)

/-- Rule 4, PEACE SIGN: index+middle, others closed, normalized
index-middle distance > 1/5. -/
def victoryCond (f : Fingers) (lms : List Landmark) : Bool :=
  !f.thumb && f.index && f.middle && !f.ring && !f.pinky &&
    decide (handSize2 lms < 25 * indexMiddleD2 lms)

/-- Rule 5, POINTING: index only. -/
def moreCond (f : Fingers) (_lms : List Landmark) : Bool :=
  !f.thumb && f.index && !f.middle && !f.ring && !f.pinky

/-- Rule 6, FIST: all closed. -/
def stopCond (f : Fingers) (_lms : List Landmark) : Bool :=
  !f.thumb && !f.index && !f.middle && !f.ring && !f.pinky

/-- Rule 7, OPEN HAND: all extended. -/
def helloCond (f : Fingers) (_lms : List Landmark) : Bool :=
  f.thumb && f.index && f.middle && f.ring && f.pinky

/-- Rule 8, THREE FINGERS: index+middle+ring. -/
def lessCond (f : Fingers) (_lms : List Landmark) : Bool :=
  !f.thumb && f.index && f.middle && f.ring && !f.pinky

/-- Rule 9, FOUR FINGERS: all but thumb. -/
def waterCond (f : Fingers) (_lms : List Landmark) : Bool :=
  !f.thumb && f.index && f.middle && f.ring && f.pinky

/-- Rule 10, I LOVE YOU: thumb+index+pinky. -/
def iLoveYouCond (f : Fingers) (_lms : List Landmark) : Bool :=
  f.thumb && f.index && !f.middle && !f.ring && f.pinky

/-- Rule 11, LETTER A: fist with extended thumb horizontally close to the
wrist. -/
def aCond (f : Fingers) (lms : List Landmark) : Bool :=
  !f.index && !f.middle && !f.ring && !f.pinky && f.thumb &&
    decide (absZ ((lmAt lms 4).x - (lmAt lms 0).x) < 30)

/-- Rule 12, LETTER B: all but thumb, normalized index-middle
distance < 3/10. -/
def bCond (f : Fingers) (lms : List Landmark) : Bool :=
  !f.thumb && f.index && f.middle && f.ring && f.pinky &&
    decide (100 * indexMiddleD2 lms < 9 * handSize2 lms)

/-- Rule 13, LETTER C: thumb+index, normalized thumb-index distance
strictly between 1/5 and 2/5. -/
def cCond (f : Fingers) (lms : List Landmark) : Bool :=
  f.thumb && f.index && !f.middle && !f.ring && !f.pinky &&
    decide (handSize2 lms < 25 * thumbIndexD2 lms) &&
    decide (25 * thumbIndexD2 lms < 4 * handSize2 lms)

/-- The ordered rule chain of `recognize_gesture` (lines 151-242): the
first guard that holds returns its fixed result; no guard gives
no-match. -/
def evalRules (f : Fingers) (lms : List Landmark) : ClassResult :=
  if goodCond f lms then ⟨some 8, some "Good", 9/10⟩
  else if badCond f lms then ⟨some 9, some "Bad", 17/20⟩
  else if yesCond f lms then ⟨some 3, some "Yes", 9/10⟩
  else if victoryCond f lms then ⟨some 20, some "Victory", 17/20⟩
  else if moreCond f lms then ⟨some 12, some "More", 4/5⟩
  else if stopCond f lms then ⟨some 10, some "Stop", 9/10⟩
  else if helloCond f lms then ⟨some 0, some "Hello", 9/10⟩
  else if lessCond f lms then ⟨some 13, some "Less", 4/5⟩
  else if waterCond f lms then ⟨some 14, some "Water", 3/4⟩
  else if iLoveYouCond f lms then ⟨some 7, some "I Love You", 17/20⟩
  else if aCond f lms then ⟨some 21, some "A", 4/5⟩
  else if bCond f lms then ⟨some 22, some "B", 4/5⟩
  else if cCond f lms then ⟨some 23, some "C", 3/4⟩
  else ⟨none, none, 0⟩

/-- `GestureRecognizer.recognize_gesture` (lines 102-242): length guard,
finger analysis, minimum-hand-size gate (`hand_size < 10`, i.e.
`handSize2 < 100`), then the ordered rule chain. -/
def recognize_gesture (lms : List Landmark) : ClassResult :=
  if lms.length < 21 then ⟨none, none, 0⟩
  else
    match analyze_fingers lms with
    | none => ⟨none, none, 0⟩
    | some f =>
      if handSize2 lms < 100 then ⟨none, none, 0⟩
      else evalRules f lms

/-- `GestureRecognizer.recognize_from_landmarks` (lines 244-265): length
guard, then per-landmark reformatting (the identity in this model) and a
call to `recognize_gesture`. -/
def recognize_from_landmarks (lms : List Landmark) : ClassResult :=
  if lms.length < 21 then ⟨none, none, 0⟩
  else recognize_gesture lms

/-- One row of the specification-side rule table: a pose predicate and
the fixed result it yields. -/
structure Rule where
  pred : List Landmark → Bool
  result : ClassResult

/-- First-match-wins evaluation of an ordered rule table.  Modelled from
the spec: "Classification is an ordered, first-match-wins rule table"
(spec section 4.2); the first rule whose predicate holds determines the
result, else no-match. -/
def firstMatch : List Rule → List Landmark → ClassResult
  | [], _ => ⟨none, none, 0⟩
  | r :: rs, lms => if r.pred lms then r.result else firstMatch rs lms

/-- The ordered rule table of spec section 4.2, with the guards
transcribed from the source rule chain. -/
def ruleTable : List Rule :=
  [⟨fun lms => goodCond (fingersOf lms) lms, ⟨some 8, some "Good", 9/10⟩⟩,
   ⟨fun lms => badCond (fingersOf lms) lms, ⟨some 9, some "Bad", 17/20⟩⟩,
   ⟨fun lms => yesCond (fingersOf lms) lms, ⟨some 3, some "Yes", 9/10⟩⟩,
   ⟨fun lms => victoryCond (fingersOf lms) lms, ⟨some 20, some "Victory", 17/20⟩⟩,
   ⟨fun lms => moreCond (fingersOf lms) lms, ⟨some 12, some "More", 4/5⟩⟩,
   ⟨fun lms => stopCond (fingersOf lms) lms, ⟨some 10, some "Stop", 9/10⟩⟩,
   ⟨fun lms => helloCond (fingersOf lms) lms, ⟨some 0, some "Hello", 9/10⟩⟩,
   ⟨fun lms => lessCond (fingersOf lms) lms, ⟨some 13, some "Less", 4/5⟩⟩,
   ⟨fun lms => waterCond (fingersOf lms) lms, ⟨some 14, some "Water", 3/4⟩⟩,
   ⟨fun lms => iLoveYouCond (fingersOf lms) lms, ⟨some 7, some "I Love You", 17/20⟩⟩,
   ⟨fun lms => aCond (fingersOf lms) lms, ⟨some 21, some "A", 4/5⟩⟩,
   ⟨fun lms => bCond (fingersOf lms) lms, ⟨some 22, some "B", 4/5⟩⟩,
   ⟨fun lms => cCond (fingersOf lms) lms, ⟨some 23, some "C", 3/4⟩⟩]

theorem analyze_fingers_of_length {lms : List Landmark} (h : 21 ≤ lms.length) :
    analyze_fingers lms = some (fingersOf lms) := by
  unfold fingersOf analyze_fingers
  rw [if_neg (by omega)]
  rfl

theorem evalRules_eq_firstMatch (lms : List Landmark) :
    evalRules (fingersOf lms) lms = firstMatch ruleTable lms := by
  simp only [evalRules, firstMatch, ruleTable]

/-- `SignRecognizer.recognize_sign` (src/recognizer.py lines 131-164) in
the configuration used by the application (`use_gesture_recognition =
True`, hence `self.model is None`): on at least 21 landmarks it runs the
gesture recognizer; a present id with confidence at or above the
threshold is resolved through the sign dictionary (keys `str(sign_id)`),
falling back to the rule's own name when that is truthy; every other
gesture-path outcome returns `(None, confidence if confidence else
0.0)`.  With fewer than 21 landmarks the ML fallback runs, and with
`self.model = None` it returns `(None, 0.0)`. -/
def recognize_sign (dict : ℕ → Option String) (lms : List Landmark) (θ : ℚ) :
    Option String × ℚ :=
  if 21 ≤ lms.length then
    let r := recognize_from_landmarks lms
    match r.sign_id with
    | some i =>
      if θ ≤ r.confidence then
        match dict i with
        | some txt => (some txt, r.confidence)
        | none =>
          match r.sign_name with
          | some n =>
            if n ≠ "" then (some n, r.confidence)
            else (none, if r.confidence ≠ 0 then r.confidence else 0)
          | none => (none, if r.confidence ≠ 0 then r.confidence else 0)
      else (none, if r.confidence ≠ 0 then r.confidence else 0)
    | none => (none, if r.confidence ≠ 0 then r.confidence else 0)
  else (none, 0)

/-- `TextConverter.add_sign` (src/text_converter.py lines 31-48): on a
truthy (nonempty) sign text with sufficient confidence, append unless
equal to the current last element; returns the success flag and the new
sentence. -/
def add_sign (sentence : List String) (sign_text : String)
    (min_confidence confidence : ℚ) : Bool × List String :=
  if sign_text ≠ "" ∧ min_confidence ≤ confidence then
    if sentence = [] ∨ sentence.getLast? ≠ some sign_text then
      (true, sentence ++ [sign_text])
    else (false, sentence)
  else (false, sentence)

/-- `TextConverter.remove_last_word` (lines 64-67): pop the last element
of a nonempty sentence. -/
def remove_last_word (sentence : List String) : List String :=
  if sentence ≠ [] then sentence.dropLast else sentence

/-- `TextConverter.clear_sentence` (lines 54-58) acting on the pair
(current_sentence, history): a nonempty sentence is joined and pushed
onto the history, then the sentence is emptied. -/
def clear_sentence (sentence history : List String) : List String × List String :=
  if sentence ≠ [] then ([], history ++ [String.intercalate " " sentence])
  else ([], history)

/-- The mutable per-session state of the commit loop in `main`
(src/main.py lines 70-76 and 107-147): the candidate sign, its hold
start time, the time of the last qualifying observation, and the
committed sentence.  (`last_spoken_sign` only gates text-to-speech and
never feeds back into this state, so it is omitted.) -/
structure FrameState where
  current_sign : Option String
  sign_start_time : Option ℚ
  last_sign_time : ℚ
  sentence : List String
deriving DecidableEq

/-- `sign_hold_duration` (src/main.py line 72). -/
def sign_hold_duration : ℚ := 1

/-- `confidence_threshold` (src/main.py line 75). -/
def confidence_threshold : ℚ := 2/5

/-- The 0.5-second gap literal (src/main.py line 145). -/
def gap_timeout : ℚ := 1/2

/-- One iteration of the sign-commitment logic of `main` (src/main.py
lines 107-147) given the recognizer's output for a frame with at least
21 landmarks.  Python truthiness: `if sign_text:` fails on `None` and
`""`; `if sign_start_time and ...` fails on `None` and `0.0`. -/
def processFrame (st : FrameState) (sign_text : Option String)
    (confidence now : ℚ) : FrameState :=
  match sign_text with
  | some s =>
    if s ≠ "" then
      if some s = st.current_sign then
        match st.sign_start_time with
        | some t0 =>
          if t0 ≠ 0 ∧ sign_hold_duration ≤ now - t0 then
            { current_sign := none, sign_start_time := none, last_sign_time := now,
              sentence := (add_sign st.sentence s confidence_threshold confidence).2 }
          else { st with last_sign_time := now }
        | none => { st with last_sign_time := now }
      else
        { st with current_sign := some s, sign_start_time := some now,
                  last_sign_time := now }
    else
      if now - st.last_sign_time > gap_timeout then
        { st with current_sign := none, sign_start_time := none }
      else st
  | none =>
    if now - st.last_sign_time > gap_timeout then
      { st with current_sign := none, sign_start_time := none }
    else st

/-- Iterated frame processing, feeding the fixed classification "Hello"
with per-frame (confidence, timestamp) pairs in order. -/
def runHello (st : FrameState) : List (ℚ × ℚ) → FrameState
  | [] => st
  | p :: ps => runHello (processFrame st (some "Hello") p.1 p.2) ps

/-- The whole per-frame update of `main` (src/main.py lines 107-147)
including the outer guard `if landmarks and len(landmarks) >= 21:`:
frames whose landmark list is empty or shorter than 21 perform no state
update at all. -/
def frameUpdate (dict : ℕ → Option String) (st : FrameState)
    (lms : List Landmark) (now : ℚ) : FrameState :=
  if lms ≠ [] ∧ 21 ≤ lms.length then
    let r := recognize_sign dict lms confidence_threshold
    processFrame st r.1 r.2 now
  else st

/-! ### Concrete poses used in witnesses and counterexamples
Landmark lists of length 21, indexed by the MediaPipe layout: 0 wrist,
2 thumb MCP, 4 thumb tip, 6/8 index PIP/tip, 10/12 middle PIP/tip,
14/16 ring PIP/tip, 18/20 pinky PIP/tip. -/

/-- The degenerate pose with every landmark at the origin: all fingers
closed, hand size 0. -/
def P0 : List Landmark := List.replicate 21 ⟨0, 0⟩

/-- A tiny pose with all five fingers extended but squared hand size 0
(wrist and middle tip coincide). -/
def P1 : List Landmark :=
  [⟨0, 0⟩, ⟨0, 0⟩, ⟨1, 0⟩, ⟨0, 0⟩, ⟨2, 0⟩,
   ⟨0, 0⟩, ⟨0, 1⟩, ⟨0, 0⟩, ⟨0, 0⟩,
   ⟨0, 0⟩, ⟨0, 1⟩, ⟨0, 0⟩, ⟨0, 0⟩,
   ⟨0, 0⟩, ⟨0, 1⟩, ⟨0, 0⟩, ⟨0, 0⟩,
   ⟨0, 0⟩, ⟨0, 1⟩, ⟨0, 0⟩, ⟨0, 0⟩]

/-- A good-scale pose with all five fingers closed and the thumb tip
31 px below the wrist. -/
def P2 : List Landmark :=
  [⟨0, 0⟩, ⟨0, 0⟩, ⟨5, 0⟩, ⟨0, 0⟩, ⟨0, 31⟩,
   ⟨0, 0⟩, ⟨0, 40⟩, ⟨0, 0⟩, ⟨0, 50⟩,
   ⟨0, 0⟩, ⟨0, 40⟩, ⟨0, 0⟩, ⟨0, 50⟩,
   ⟨0, 0⟩, ⟨0, 40⟩, ⟨0, 0⟩, ⟨0, 50⟩,
   ⟨0, 0⟩, ⟨0, 40⟩, ⟨0, 0⟩, ⟨0, 50⟩]

/-- A good-scale pose with thumb closed and the four fingers extended
(the FOUR FINGERS pattern). -/
def P3 : List Landmark :=
  [⟨0, 0⟩, ⟨0, 0⟩, ⟨5, 0⟩, ⟨0, 0⟩, ⟨0, 5⟩,
   ⟨0, 0⟩, ⟨0, 10⟩, ⟨0, 0⟩, ⟨0, 1⟩,
   ⟨0, 0⟩, ⟨0, 10⟩, ⟨0, 0⟩, ⟨0, -50⟩,
   ⟨0, 0⟩, ⟨0, 10⟩, ⟨0, 0⟩, ⟨0, 1⟩,
   ⟨0, 0⟩, ⟨0, 10⟩, ⟨0, 0⟩, ⟨0, 1⟩]

/-- A good-scale pose with all five fingers extended. -/
def P4 : List Landmark :=
  [⟨0, 0⟩, ⟨0, 0⟩, ⟨5, 0⟩, ⟨0, 0⟩, ⟨10, 0⟩,
   ⟨0, 0⟩, ⟨0, 10⟩, ⟨0, 0⟩, ⟨0, 1⟩,
   ⟨0, 0⟩, ⟨0, 10⟩, ⟨0, 0⟩, ⟨0, -50⟩,
   ⟨0, 0⟩, ⟨0, 10⟩, ⟨0, 0⟩, ⟨0, 1⟩,
   ⟨0, 0⟩, ⟨0, 10⟩, ⟨0, 0⟩, ⟨0, 1⟩]

/-- A good-scale pose with all five fingers closed and the thumb tip only
5 px below the wrist. -/
def P5 : List Landmark :=
  [⟨0, 0⟩, ⟨0, 0⟩, ⟨5, 0⟩, ⟨0, 0⟩, ⟨0, 5⟩,
   ⟨0, 0⟩, ⟨0, 40⟩, ⟨0, 0⟩, ⟨0, 50⟩,
   ⟨0, 0⟩, ⟨0, 40⟩, ⟨0, 0⟩, ⟨0, 50⟩,
   ⟨0, 0⟩, ⟨0, 40⟩, ⟨0, 0⟩, ⟨0, 50⟩,
   ⟨0, 0⟩, ⟨0, 40⟩, ⟨0, 0⟩, ⟨0, 50⟩]

example : recognize_gesture P0 = ⟨none, none, 0⟩ := rfl
example : analyze_fingers P1 = some ⟨true, true, true, true, true⟩ := by decide
example : recognize_gesture P1 = ⟨none, none, 0⟩ := rfl
example : analyze_fingers P2 = some ⟨false, false, false, false, false⟩ := by decide
example : recognize_gesture P2 = ⟨some 9, some "Bad", 17/20⟩ := rfl
example : recognize_gesture P3 = ⟨some 14, some "Water", 3/4⟩ := rfl
example : recognize_gesture P4 = ⟨some 0, some "Hello", 9/10⟩ := rfl
example : recognize_gesture P5 = ⟨some 10, some "Stop", 9/10⟩ := rfl
example : recognize_from_landmarks P3 = ⟨some 14, some "Water", 3/4⟩ := rfl

/-! ### Helper lemmas -/

theorem firstMatch_conf_bounds (rs : List Rule)
    (h : ∀ r ∈ rs, 0 ≤ r.result.confidence ∧ r.result.confidence ≤ 1)
    (lms : List Landmark) :
    0 ≤ (firstMatch rs lms).confidence ∧ (firstMatch rs lms).confidence ≤ 1 := by
  induction rs with
  | nil => simp [firstMatch]
  | cons r rs ih =>
    rw [firstMatch]
    split
    · exact h r (List.mem_cons_self r rs)
    · exact ih fun q hq => h q (List.mem_cons_of_mem r hq)

theorem ruleTable_conf_bounds :
    ∀ r ∈ ruleTable, 0 ≤ r.result.confidence ∧ r.result.confidence ≤ 1 := by
  intro r hr
  simp only [ruleTable, List.mem_cons, List.not_mem_nil, or_false] at hr
  rcases hr with rfl | rfl | rfl | rfl | rfl | rfl | rfl | rfl | rfl | rfl | rfl | rfl | rfl
  all_goals norm_num

theorem recognize_gesture_eq_of_length {lms : List Landmark} (h : 21 ≤ lms.length) :
    recognize_gesture lms =
      if handSize2 lms < 100 then ⟨none, none, 0⟩
      else evalRules (fingersOf lms) lms := by
  have h21 : ¬ lms.length < 21 := by omega
  simp [recognize_gesture, h21, analyze_fingers_of_length h]

/-! ### Claim theorems -/

/-- C1: for every well-formed 21-landmark pose the classifier's
confidence lies in [0,1], and when the pose passes the scale gate the
result is that of the first rule, in the fixed order of the rule table,
whose predicate the pose satisfies (`firstMatch` returns the first
matching rule's result and ignores all later matches, so there is never
more than one determining candidate). -/
theorem recognize_gesture_first_match (lms : List Landmark) (h : 21 ≤ lms.length) :
    0 ≤ (recognize_gesture lms).confidence ∧ (recognize_gesture lms).confidence ≤ 1 ∧
      (100 ≤ handSize2 lms → recognize_gesture lms = firstMatch ruleTable lms) := by
  rw [recognize_gesture_eq_of_length h]
  by_cases hs : handSize2 lms < 100
  · rw [if_pos hs]
    exact ⟨by norm_num, by norm_num, fun hge => absurd hs (not_lt.2 hge)⟩
  · rw [if_neg hs, evalRules_eq_firstMatch]
    obtain ⟨b1, b2⟩ := firstMatch_conf_bounds ruleTable ruleTable_conf_bounds lms
    exact ⟨b1, b2, fun _ => rfl⟩

/-- Witness for C1 at the concrete pose `P3`. -/
theorem recognize_gesture_first_match_witness :
    0 ≤ (recognize_gesture P3).confidence ∧ (recognize_gesture P3).confidence ≤ 1 ∧
      recognize_gesture P3 = firstMatch ruleTable P3 := by
  obtain ⟨h1, h2, h3⟩ := recognize_gesture_first_match P3 (by decide)
  exact ⟨h1, h2, h3 (by decide)⟩

/-- C4: a 21-landmark pose whose squared hand scale is below the
threshold (hand size < 10 px) is rejected with the no-match result
before any rule is evaluated, whatever the finger pattern. -/
theorem recognize_gesture_scale_gate (lms : List Landmark) (h : 21 ≤ lms.length)
    (hs : handSize2 lms < 100) :
    recognize_gesture lms = ⟨none, none, 0⟩ := by
  rw [recognize_gesture_eq_of_length h, if_pos hs]

/-- Witness for C4 at the all-origin pose `P0`. -/
theorem recognize_gesture_scale_gate_witness :
    recognize_gesture P0 = ⟨none, none, 0⟩ :=
  recognize_gesture_scale_gate P0 (by decide) (by decide)

/-- Counterexample to C3 as stated: the all-extended 21-landmark pose
`P1` has hand scale below the minimum, so the classifier returns
no-match instead of "Hello"; and the all-closed good-scale pose `P2`,
whose thumb tip lies 31 px below the wrist, matches the earlier
THUMBS DOWN rule and returns "Bad" instead of "Stop". -/
theorem hello_stop_counterexample :
    (analyze_fingers P1 = some ⟨true, true, true, true, true⟩ ∧
      recognize_gesture P1 = ⟨none, none, 0⟩ ∧
      recognize_gesture P1 ≠ ⟨some 0, some "Hello", 9/10⟩) ∧
    (analyze_fingers P2 = some ⟨false, false, false, false, false⟩ ∧
      recognize_gesture P2 = ⟨some 9, some "Bad", 17/20⟩ ∧
      recognize_gesture P2 ≠ ⟨some 10, some "Stop", 9/10⟩) :=
  ⟨⟨by decide, rfl, by
      rw [show recognize_gesture P1 = ⟨none, none, 0⟩ from rfl]
      simp⟩,
   ⟨by decide, rfl, by
      rw [show recognize_gesture P2 = ⟨some 9, some "Bad", 17/20⟩ from rfl]
      simp⟩⟩

/-- C3 amended: in every 21-landmark pose that passes the scale gate,
all five fingers extended yields (id 0, "Hello", 0.90), and all five
fingers closed with the thumb tip at most 30 px below the wrist yields
(id 10, "Stop", 0.90). -/
theorem hello_stop_amended (lms : List Landmark) (h : 21 ≤ lms.length)
    (hs : 100 ≤ handSize2 lms) :
    (analyze_fingers lms = some ⟨true, true, true, true, true⟩ →
      recognize_gesture lms = ⟨some 0, some "Hello", 9/10⟩) ∧
    (analyze_fingers lms = some ⟨false, false, false, false, false⟩ →
      ¬ (lmAt lms 4).y > (lmAt lms 0).y + 30 →
      recognize_gesture lms = ⟨some 10, some "Stop", 9/10⟩) := by
  rw [recognize_gesture_eq_of_length h, if_neg (not_lt.2 hs)]
  constructor
  · intro hf
    have hfo : fingersOf lms = ⟨true, true, true, true, true⟩ := by
      rw [fingersOf, hf]; rfl
    simp [evalRules, goodCond, badCond, yesCond, victoryCond, moreCond,
      stopCond, helloCond, hfo]
  · intro hf hthumb
    have hfo : fingersOf lms = ⟨false, false, false, false, false⟩ := by
      rw [fingersOf, hf]; rfl
    simp [evalRules, goodCond, badCond, yesCond, victoryCond, moreCond,
      stopCond, hfo, hthumb]

/-- Witness for the amended C3 at the all-extended pose `P4` and the
all-closed pose `P5`. -/
theorem hello_stop_amended_witness :
    recognize_gesture P4 = ⟨some 0, some "Hello", 9/10⟩ ∧
    recognize_gesture P5 = ⟨some 10, some "Stop", 9/10⟩ :=
  ⟨(hello_stop_amended P4 (by decide) (by decide)).1 (by decide),
   (hello_stop_amended P5 (by decide) (by decide)).2 (by decide) (by decide)⟩

/-- C9: on a 21-landmark pose the finger analysis marks the thumb
extended iff the horizontal wrist-to-thumb-tip distance exceeds the
horizontal wrist-to-thumb-MCP distance, and marks each other finger
extended iff its tip's y coordinate is smaller than its PIP's. -/
theorem analyze_fingers_spec (lms : List Landmark) (h : lms.length = 21) :
    analyze_fingers lms = some
      { thumb := decide (absZ ((lmAt lms 4).x - (lmAt lms 0).x) >
                         absZ ((lmAt lms 2).x - (lmAt lms 0).x))
        index := decide ((lmAt lms 8).y < (lmAt lms 6).y)
        middle := decide ((lmAt lms 12).y < (lmAt lms 10).y)
        ring := decide ((lmAt lms 16).y < (lmAt lms 14).y)
        pinky := decide ((lmAt lms 20).y < (lmAt lms 18).y) } := by
  simp [analyze_fingers, is_finger_extended, h]

/-- Counterexample to C7 as stated: on the empty sentence the empty
token should append (the sentence is empty), but `add_sign` tests Python
truthiness of the token first and refuses it. -/
theorem add_sign_counterexample :
    add_sign [] "" (1/2) 1 = (false, []) ∧
    ¬ (((add_sign [] "" (1/2) 1).1 = true) ↔
        (([] : List String) = [] ∨ ([] : List String).getLast? ≠ some "")) := by
  constructor
  · simp [add_sign]
  · simp [add_sign]

/-- C7 amended: for every nonempty token, `add_sign` at its default
confidence arguments (min 0.5, confidence 1.0) succeeds and appends iff
the token differs from the current last element or the sentence is
empty, and otherwise is a failing no-op. -/
theorem add_sign_append_iff (s : List String) (t : String) (ht : t ≠ "") :
    ((s = [] ∨ s.getLast? ≠ some t) → add_sign s t (1/2) 1 = (true, s ++ [t])) ∧
    (¬ (s = [] ∨ s.getLast? ≠ some t) → add_sign s t (1/2) 1 = (false, s)) := by
  have hconf : (1/2 : ℚ) ≤ 1 := by norm_num
  constructor
  · intro hc
    simp only [add_sign, if_pos (And.intro ht hconf), if_pos hc]
  · intro hc
    simp only [add_sign, if_pos (And.intro ht hconf), if_neg hc]

/-- Witness for the amended C7 on the empty sentence. -/
theorem add_sign_append_iff_witness :
    add_sign [] "Hello" (1/2) 1 = (true, ["Hello"]) :=
  (add_sign_append_iff [] "Hello" (by decide)).1 (Or.inl rfl)

theorem add_sign_chain' {s : List String} {t : String} {mc c : ℚ}
    (hs : List.Chain' (· ≠ ·) s) : List.Chain' (· ≠ ·) (add_sign s t mc c).2 := by
  unfold add_sign
  split
  · split
    · rename_i hcond
      rcases hcond with rfl | hlast
      · simp
      · rw [List.chain'_append]
        refine ⟨hs, List.chain'_singleton t, ?_⟩
        intro x hx y hy
        simp only [List.head?_cons, Option.mem_def, Option.some.injEq] at hy
        subst hy
        intro hxt
        exact hlast (by simpa [hxt] using hx)
    · exact hs
  · exact hs

theorem remove_last_word_chain' {s : List String}
    (hs : List.Chain' (· ≠ ·) s) : List.Chain' (· ≠ ·) (remove_last_word s) := by
  unfold remove_last_word
  split
  · exact hs.prefix (List.dropLast_prefix s)
  · exact hs

/-- C8: the no-two-identical-adjacent-tokens invariant holds of the
empty sentence and is preserved by `add_sign`, `remove_last_word` and
`clear_sentence`; non-adjacent duplicates are permitted (the final
conjunct exhibits one). -/
theorem sentence_invariant (s hist : List String) (t : String) (mc c : ℚ)
    (hs : List.Chain' (· ≠ ·) s) :
    List.Chain' (· ≠ ·) ([] : List String) ∧
    List.Chain' (· ≠ ·) (add_sign s t mc c).2 ∧
    List.Chain' (· ≠ ·) (remove_last_word s) ∧
    List.Chain' (· ≠ ·) (clear_sentence s hist).1 ∧
    List.Chain' (· ≠ ·) ["Hello", "Stop", "Hello"] := by
  have hclear : (clear_sentence s hist).1 = [] := by
    unfold clear_sentence
    split <;> rfl
  exact ⟨List.chain'_nil, add_sign_chain' hs, remove_last_word_chain' hs,
    hclear ▸ List.chain'_nil,
    List.chain'_cons.2 ⟨by decide, List.chain'_cons.2 ⟨by decide,
      List.chain'_singleton "Hello"⟩⟩⟩

/-- Witness for C8 at a concrete sentence state. -/
theorem sentence_invariant_witness :
    List.Chain' (· ≠ ·) ([] : List String) ∧
    List.Chain' (· ≠ ·) (add_sign ["Hello"] "Hello" (1/2) 1).2 ∧
    List.Chain' (· ≠ ·) (remove_last_word ["Hello"]) ∧
    List.Chain' (· ≠ ·) (clear_sentence ["Hello"] []).1 ∧
    List.Chain' (· ≠ ·) ["Hello", "Stop", "Hello"] :=
  sentence_invariant ["Hello"] [] "Hello" (1/2) 1 (List.chain'_singleton "Hello")

theorem add_sign_last_noop {s : List String} {t : String} {mc c : ℚ}
    (h : s.getLast? = some t) : (add_sign s t mc c).2 = s := by
  have hne : s ≠ [] := by rintro rfl; simp at h
  have hcond : ¬ (s = [] ∨ s.getLast? ≠ some t) := by simp [hne, h]
  unfold add_sign
  by_cases h1 : t ≠ "" ∧ mc ≤ c
  · rw [if_pos h1, if_neg hcond]
  · rw [if_neg h1]

theorem processFrame_hello_keeps_sentence (st : FrameState) (c t : ℚ)
    (h : st.sentence.getLast? = some "Hello") :
    (processFrame st (some "Hello") c t).sentence = st.sentence := by
  simp only [processFrame]
  rw [if_pos (by decide : ("Hello" : String) ≠ "")]
  by_cases hc : some "Hello" = st.current_sign
  · rw [if_pos hc]
    cases hst : st.sign_start_time with
    | none => rfl
    | some t0 =>
      dsimp only
      by_cases hcommit : t0 ≠ 0 ∧ sign_hold_duration ≤ t - t0
      · rw [if_pos hcommit]
        exact add_sign_last_noop h
      · rw [if_neg hcommit]
  · rw [if_neg hc]

theorem runHello_keeps_sentence (fs : List (ℚ × ℚ)) :
    ∀ st : FrameState, st.sentence.getLast? = some "Hello" →
      (runHello st fs).sentence = st.sentence := by
  induction fs with
  | nil => intro st _; rfl
  | cons p ps ih =>
    intro st h
    have hstep := processFrame_hello_keeps_sentence st p.1 p.2 h
    rw [show runHello st (p :: ps)
        = runHello (processFrame st (some "Hello") p.1 p.2) ps from rfl,
      ih _ (by rw [hstep]; exact h), hstep]

theorem runHello_commits (fs : List (ℚ × ℚ)) :
    ∀ t0 lt : ℚ, t0 ≠ 0 →
      (∀ p ∈ fs, confidence_threshold ≤ p.1) →
      (∃ p ∈ fs, t0 + sign_hold_duration ≤ p.2) →
      (runHello ⟨some "Hello", some t0, lt, []⟩ fs).sentence = ["Hello"] := by
  induction fs with
  | nil =>
    intro t0 lt _ _ hex
    simp at hex
  | cons p ps ih =>
    intro t0 lt ht0 hconf hex
    rw [show runHello ⟨some "Hello", some t0, lt, []⟩ (p :: ps)
        = runHello (processFrame ⟨some "Hello", some t0, lt, []⟩
            (some "Hello") p.1 p.2) ps from rfl]
    by_cases hcommit : t0 + sign_hold_duration ≤ p.2
    · have hstep : processFrame ⟨some "Hello", some t0, lt, []⟩
          (some "Hello") p.1 p.2 = ⟨none, none, p.2, ["Hello"]⟩ := by
        have hadd : (add_sign ([] : List String) "Hello"
            confidence_threshold p.1).2 = ["Hello"] := by
          unfold add_sign
          rw [if_pos ⟨by decide, hconf p (List.mem_cons_self p ps)⟩,
            if_pos (Or.inl rfl)]
          rfl
        simp [processFrame, ht0, show sign_hold_duration ≤ p.2 - t0 from
          by linarith, hadd]
      rw [hstep, runHello_keeps_sentence ps ⟨none, none, p.2, ["Hello"]⟩ rfl]
    · have hstep : processFrame ⟨some "Hello", some t0, lt, []⟩
          (some "Hello") p.1 p.2 = ⟨some "Hello", some t0, p.2, []⟩ := by
        have hnc : ¬ (t0 ≠ 0 ∧ sign_hold_duration ≤ p.2 - t0) := by
          rintro ⟨-, hd⟩
          exact hcommit (by linarith)
        simp [processFrame, hnc]
      rw [hstep]
      refine ih t0 p.2 ht0 (fun q hq => hconf q (List.mem_cons_of_mem p hq)) ?_
      rcases hex with ⟨q, hq, hqt⟩
      rcases List.mem_cons.1 hq with rfl | hq'
      · exact absurd hqt hcommit
      · exact ⟨q, hq', hqt⟩

/-- C2: starting from the Idle commit state with an empty sentence,
feeding the "Hello" classification at confidence at least the 0.4
threshold, with a positive first timestamp and some later frame at least
the 1.0 s hold duration after it, commits exactly one "Hello" token; and
every further run of "Hello" frames leaves the sentence at exactly
["Hello"] — no second consecutive "Hello" is ever appended.  (The span
hypothesis is stated as the existence of a frame at least `hold` after
the first frame's timestamp, which for monotone timestamps is exactly
"timestamps spanning at least the hold duration"; timestamps are
positive, as `time.time()` values are, so the Python float-truthiness
test on the stored start time cannot misfire.) -/
theorem hello_commits_once (tInit c0 t0 : ℚ) (rest more : List (ℚ × ℚ))
    (ht0 : 0 < t0) (_hc0 : confidence_threshold ≤ c0)
    (hrest : ∀ p ∈ rest, confidence_threshold ≤ p.1)
    (hspan : ∃ p ∈ rest, t0 + sign_hold_duration ≤ p.2) :
    (runHello ⟨none, none, tInit, []⟩ ((c0, t0) :: rest)).sentence = ["Hello"] ∧
    (runHello (runHello ⟨none, none, tInit, []⟩ ((c0, t0) :: rest)) more).sentence
      = ["Hello"] := by
  have hstep : processFrame ⟨none, none, tInit, []⟩ (some "Hello") c0 t0
      = ⟨some "Hello", some t0, t0, []⟩ := by
    simp [processFrame]
  have h1 : (runHello ⟨none, none, tInit, []⟩ ((c0, t0) :: rest)).sentence
      = ["Hello"] := by
    rw [show runHello ⟨none, none, tInit, []⟩ ((c0, t0) :: rest)
        = runHello (processFrame ⟨none, none, tInit, []⟩ (some "Hello") c0 t0)
            rest from rfl, hstep]
    exact runHello_commits rest t0 t0 (ne_of_gt ht0) hrest hspan
  refine ⟨h1, ?_⟩
  rw [runHello_keeps_sentence more _ (by rw [h1]; rfl), h1]

/-- Witness for C2: two "Hello" frames at times 1 and 2 commit one
token; a third frame at time 3 does not add another. -/
theorem hello_commits_once_witness :
    (runHello ⟨none, none, 0, []⟩ [(1, 1), (1, 2)]).sentence = ["Hello"] ∧
    (runHello (runHello ⟨none, none, 0, []⟩ [(1, 1), (1, 2)]) [(1, 3)]).sentence
      = ["Hello"] :=
  hello_commits_once 0 1 1 [(1, 2)] [(1, 3)] (by norm_num)
    (by norm_num [confidence_threshold])
    (by
      intro p hp
      simp only [List.mem_singleton] at hp
      subst hp
      norm_num [confidence_threshold])
    ⟨(1, 2), List.mem_singleton_self _, by norm_num [sign_hold_duration]⟩

/-- C5: in any Holding state, a frame with no qualifying observation
arriving more than the 0.5 s gap timeout after the last qualifying
observation resets the state to Idle and leaves the committed sentence
unchanged. -/
theorem gap_resets_to_idle (st : FrameState) (s : String) (c now : ℚ)
    (_hhold : st.current_sign = some s)
    (hgap : now - st.last_sign_time > gap_timeout) :
    processFrame st none c now
      = { st with current_sign := none, sign_start_time := none } ∧
    (processFrame st none c now).sentence = st.sentence := by
  constructor
  · simp only [processFrame]
    rw [if_pos hgap]
  · simp only [processFrame]
    rw [if_pos hgap]

/-- Witness for C5 at a concrete Holding state. -/
theorem gap_resets_to_idle_witness :
    processFrame ⟨some "Hello", some 1, 1, ["Good"]⟩ none 0 2
      = ⟨none, none, 1, ["Good"]⟩ ∧
    (processFrame ⟨some "Hello", some 1, 1, ["Good"]⟩ none 0 2).sentence
      = ["Good"] :=
  gap_resets_to_idle ⟨some "Hello", some 1, 1, ["Good"]⟩ "Hello" 0 2 rfl
    (by norm_num [gap_timeout])

/-- Counterexample to C6 as stated: with the commit state Holding and
the gap timeout long expired (now − last = 9 > 0.5), a frame with an
empty landmark list leaves the state fully unchanged — still Holding —
because the per-frame update's outer guard skips the gap-timeout branch
entirely, while a low-confidence observation with 21 landmarks would
have reset it to Idle. -/
theorem malformed_frame_counterexample :
    frameUpdate (fun _ => none) ⟨some "Hello", some 1, 1, []⟩ [] 10
      = ⟨some "Hello", some 1, 1, []⟩ ∧
    (frameUpdate (fun _ => none) ⟨some "Hello", some 1, 1, []⟩ [] 10).current_sign
      ≠ none ∧
    (10 : ℚ) - 1 > gap_timeout ∧
    processFrame ⟨some "Hello", some 1, 1, []⟩ none 0 10
      = ⟨none, none, 1, []⟩ := by
  refine ⟨rfl, by
      rw [show frameUpdate (fun _ => none) ⟨some "Hello", some 1, 1, []⟩ [] 10
          = ⟨some "Hello", some 1, 1, []⟩ from rfl]
      simp, by norm_num [gap_timeout], ?_⟩
  simp only [processFrame]
  rw [if_pos (show (10 : ℚ) - 1 > gap_timeout by norm_num [gap_timeout])]

/-- C6 amended: with fewer than 21 landmarks the classifier returns
no-match, and the per-frame update leaves the commit state entirely
unchanged — the gap timeout is not evaluated on such frames, unlike for
a low-confidence observation carrying 21 landmarks. -/
theorem malformed_frame_no_update (dict : ℕ → Option String) (st : FrameState)
    (lms : List Landmark) (now : ℚ) (h : lms.length < 21) :
    recognize_gesture lms = ⟨none, none, 0⟩ ∧ frameUpdate dict st lms now = st := by
  constructor
  · simp [recognize_gesture, h]
  · have hguard : ¬ (lms ≠ [] ∧ 21 ≤ lms.length) := by
      rintro ⟨-, h2⟩
      omega
    simp [frameUpdate, hguard]

/-- Witness for the amended C6 on the empty landmark list. -/
theorem malformed_frame_no_update_witness :
    recognize_gesture [] = ⟨none, none, 0⟩ ∧
    frameUpdate (fun _ => none) ⟨some "Hello", some 1, 1, []⟩ [] 10
      = ⟨some "Hello", some 1, 1, []⟩ :=
  malformed_frame_no_update (fun _ => none) ⟨some "Hello", some 1, 1, []⟩ [] 10
    (by decide)

theorem firstMatch_conf_pos (rs : List Rule)
    (h : ∀ r ∈ rs, r.result.sign_id.isSome → 0 < r.result.confidence)
    (lms : List Landmark) {i : ℕ} {nm : Option String} {c : ℚ}
    (he : firstMatch rs lms = ⟨some i, nm, c⟩) : 0 < c := by
  induction rs with
  | nil => simp [firstMatch] at he
  | cons r rs ih =>
    rw [firstMatch] at he
    split at he
    · have := h r (List.mem_cons_self r rs)
      rw [he] at this
      exact this rfl
    · exact ih (fun q hq => h q (List.mem_cons_of_mem r hq)) he

theorem ruleTable_conf_pos :
    ∀ r ∈ ruleTable, r.result.sign_id.isSome → 0 < r.result.confidence := by
  intro r hr
  simp only [ruleTable, List.mem_cons, List.not_mem_nil, or_false] at hr
  rcases hr with rfl | rfl | rfl | rfl | rfl | rfl | rfl | rfl | rfl | rfl | rfl | rfl | rfl
  all_goals intro _
  all_goals norm_num

theorem recognize_gesture_pos_of_match (lms : List Landmark) {i : ℕ}
    {nm : Option String} {c : ℚ}
    (h : recognize_gesture lms = ⟨some i, nm, c⟩) : 0 < c := by
  have hlen : 21 ≤ lms.length := by
    by_contra hl
    rw [recognize_gesture, if_pos (by omega)] at h
    simp at h
  rw [recognize_gesture_eq_of_length hlen] at h
  split at h
  · simp at h
  · rw [evalRules_eq_firstMatch] at h
    exact firstMatch_conf_pos ruleTable ruleTable_conf_pos lms h

/-- C10: whenever the geometric classifier matches a rule but that
rule's fixed confidence falls below the caller's threshold,
`recognize_sign` returns no sign together with that strictly positive
confidence, not (none, 0.0). -/
theorem recognize_sign_none_positive (dict : ℕ → Option String)
    (lms : List Landmark) (θ : ℚ) (i : ℕ) (nm : Option String) (c : ℚ)
    (h : recognize_from_landmarks lms = ⟨some i, nm, c⟩) (hθ : c < θ) :
    recognize_sign dict lms θ = (none, c) ∧ 0 < c := by
  have hlen : 21 ≤ lms.length := by
    by_contra hl
    rw [recognize_from_landmarks, if_pos (by omega)] at h
    simp at h
  have hrg : recognize_gesture lms = ⟨some i, nm, c⟩ := by
    rwa [recognize_from_landmarks, if_neg (by omega)] at h
  have hpos : 0 < c := recognize_gesture_pos_of_match lms hrg
  refine ⟨?_, hpos⟩
  rw [recognize_sign, if_pos hlen]
  simp [h, not_le.2 hθ, ne_of_gt hpos]

/-- Witness for C10: the FOUR FINGERS pose `P3` matches the "Water" rule
at confidence 0.75; with the caller's threshold at 0.8 the text-level
recognizer returns (none, 0.75). -/
theorem recognize_sign_none_positive_witness :
    recognize_sign (fun _ => none) P3 (4/5) = (none, 3/4) ∧ (0 : ℚ) < 3/4 :=
  recognize_sign_none_positive (fun _ => none) P3 (4/5) 14 (some "Water") (3/4)
    rfl (by norm_num)

/-- Witness for C9 at the concrete pose `P5`. -/
theorem analyze_fingers_spec_witness :
    analyze_fingers P5 = some
      { thumb := decide (absZ ((lmAt P5 4).x - (lmAt P5 0).x) >
                         absZ ((lmAt P5 2).x - (lmAt P5 0).x))
        index := decide ((lmAt P5 8).y < (lmAt P5 6).y)
        middle := decide ((lmAt P5 12).y < (lmAt P5 10).y)
        ring := decide ((lmAt P5 16).y < (lmAt P5 14).y)
        pinky := decide ((lmAt P5 20).y < (lmAt P5 18).y) } :=
  analyze_fingers_spec P5 (by decide)
